import Mathlib

/-!
Shallow embedding of the functional-DDD sample repository
(`src/domain/order`, `src/domain/shipping`, `src/shared/types.ts`,
`src/application/placeOrderCommand.ts`, `src/application/createShippingCommand.ts`).

Modelling conventions:
* JavaScript numbers are modelled as `ℚ` (the code only performs exact
  decimal arithmetic on prices and integer quantities).
* `Date` values are modelled as integer timestamps in milliseconds on a
  linear, DST-free clock; `new Date()` occurrences become explicit `now`
  parameters, and the random id / tracking-number generators become
  explicit parameters as well.
* Zod `.parse` / `.safeParse` calls are modelled by functions returning
  `Except String _` carrying the first issue's message; `z.custom<T>()`
  fields perform no runtime check, so only the checks zod actually runs
  (string lengths, the postal-code regex, array minima) are embedded.
* The TS `Result<T>` discriminated union becomes the inductive `Result`.
-/

namespace Shop

/-- Dates are millisecond timestamps on a linear clock. -/
abbrev Date := Int

/-- Promise rejection reasons (the `unknown` passed to `catch`). -/
abbrev Reason := String

/-- The `Result<T>` from `src/domain/order/types.ts` / `src/domain/shipping/types.ts`:
`{ success: true; value: T } | { success: false; error: string }`. -/
inductive Result (T : Type) where
  | success (value : T)
  | failure (error : String)
deriving DecidableEq, Repr

/-! ## Order domain (`src/domain/order/types.ts`) -/

/-- The `Math.round` on a rational: round half toward positive infinity. -/
def mathRound (x : ℚ) : ℤ := ⌊x + 1/2⌋

/-- The `createPrice` from `src/domain/order/types.ts`: `PriceSchema.safeParse`,
i.e. `z.number().nonnegative(...).max(999999.99, ...).transform(p => Math.round(p*100)/100)`.
Zod reports the first failed check (`nonnegative` before `max`). -/
def createPrice (value : ℚ) : Result ℚ :=
  if value < 0 then .failure "価格は負の値にできません"
  else if 999999.99 < value then .failure "価格は999,999.99を超えることはできません"
  else .success ((mathRound (value * 100) : ℚ) / 100)

/-- The `createQuantity` from `src/domain/order/types.ts`: integer, positive, ≤ 9999. -/
def createQuantity (value : ℚ) : Result ℚ :=
  if ¬ value.den = 1 then .failure "数量は整数でなければなりません"
  else if ¬ 0 < value then .failure "数量は正の値でなければなりません"
  else if 9999 < value then .failure "数量は9999を超えることはできません"
  else .success value

/-- Characterizes the values the branded `Price` type can hold: exactly the
image of `createPrice`, i.e. in-range multiples of 1/100. -/
def IsPrice (p : ℚ) : Prop := 0 ≤ p ∧ p ≤ 999999.99 ∧ (p * 100).den = 1

instance : DecidablePred IsPrice := fun _ => by unfold IsPrice; infer_instance

/-- Characterizes the values the branded `Quantity` type can hold. -/
def IsQuantity (q : ℚ) : Prop := q.den = 1 ∧ 0 < q ∧ q ≤ 9999

instance : DecidablePred IsQuantity := fun _ => by unfold IsQuantity; infer_instance

/-- The `OrderLine` (`OrderLineSchema`): productId, productName, unitPrice, quantity.
The branded `Price`/`Quantity` fields are plain numbers at runtime. -/
structure OrderLine where
  productId : String
  productName : String
  unitPrice : ℚ
  quantity : ℚ
deriving DecidableEq, Repr

/-- The `OrderStatus` (`OrderStatusSchema`): discriminated union on `type`. -/
inductive OrderStatus where
  | draft
  | placed (placedAt : Date)
  | paid (paidAt : Date)
  | cancelled (cancelledAt : Date) (reason : String)
deriving DecidableEq, Repr

/-- The discriminant string, i.e. `status.type` in the TS code. -/
def OrderStatus.tag : OrderStatus → String
  | .draft => "draft"
  | .placed _ => "placed"
  | .paid _ => "paid"
  | .cancelled _ _ => "cancelled"

/-- The `Order` (`OrderSchema`): the aggregate-root snapshot. -/
structure Order where
  id : String
  customerId : String
  lines : List OrderLine
  status : OrderStatus
  totalAmount : ℚ
  createdAt : Date
  updatedAt : Date
deriving DecidableEq, Repr

/-- The runtime checks of `z.string().min(1).max(100)` (zod default messages). -/
def parseName100 (s : String) : Except String Unit :=
  if s.length < 1 then .error "String must contain at least 1 character(s)"
  else if 100 < s.length then .error "String must contain at most 100 character(s)"
  else .ok ()

/-- Checks every line of an order, returning the first issue message.
`productId`, `unitPrice` and `quantity` are `z.custom` fields with no
runtime validation; only `productName` is actually checked by zod. -/
def parseLines : List OrderLine → Except String Unit
  | [] => .ok ()
  | l :: ls =>
    match parseName100 l.productName with
    | .error m => .error m
    | .ok _ => parseLines ls

/-- The `OrderSchema.parse` as run on an already-structured snapshot: the only
runtime checks are the per-line `productName` bounds; on success zod returns
the snapshot unchanged (no transforms on the order schema). -/
def orderSchemaParse (o : Order) : Except String Order :=
  match parseLines o.lines with
  | .error m => .error m
  | .ok _ => .ok o

/-! ## Order domain functions (`src/domain/order/functions.ts`) -/

/-- The `createOrder(customerId)`: a fresh draft order with empty lines and zero
total. The `OrderSchema.parse` call in the source always accepts this
snapshot (there are no lines to check), so the function is total. -/
def createOrder (customerId : String) (newId : String) (now : Date) : Order :=
  { id := newId
    customerId := customerId
    lines := []
    status := .draft
    totalAmount := 0
    createdAt := now
    updatedAt := now }

/-- The reduce inside `calculateTotalAmount`:
`lines.reduce((sum, line) => sum + line.unitPrice * line.quantity, 0)`. -/
def sumAmount (lines : List OrderLine) : ℚ :=
  lines.foldl (fun sum l => sum + l.unitPrice * l.quantity) 0

/-- The `calculateTotalAmount`: sums the lines and runs `createPrice` on the sum,
throwing a plain `Error` (modelled as `.error`) when the price is invalid. -/
def calculateTotalAmount (lines : List OrderLine) : Except String ℚ :=
  match createPrice (sumAmount lines) with
  | .failure e => .error e
  | .success v => .ok v

/-- The `addOrderLine(order, line)`: draft-only guard, duplicate-product guard,
then recompute the total and re-validate the new snapshot. The `try/catch`
converts the plain `Error` thrown by `calculateTotalAmount` (not a
`ZodError`) into the generic update message, while a `ZodError` from
`OrderSchema.parse` surfaces its first issue message. -/
def addOrderLine (order : Order) (line : OrderLine) (now : Date) : Result Order :=
  if order.status.tag ≠ "draft" then
    .failure "下書き状態の注文のみに明細を追加できます"
  else if (order.lines.find? (fun l => l.productId == line.productId)).isSome then
    .failure ("商品 " ++ line.productName ++ " は既に注文に含まれています")
  else
    let newLines := order.lines ++ [line]
    match calculateTotalAmount newLines with
    | .error _ => .failure "注文の更新中に不明なエラーが発生しました"
    | .ok totalAmount =>
      match orderSchemaParse { order with
          lines := newLines, totalAmount := totalAmount, updatedAt := now } with
      | .error m => .failure m
      | .ok updated => .success updated

/-- The `placeOrder(order)`: draft-only and non-empty-lines guards, then set the
status to `placed` and re-validate (a `ZodError` from the parse surfaces its
first message; nothing else in the `try` block can throw). -/
def placeOrder (order : Order) (now : Date) : Result Order :=
  if order.status.tag ≠ "draft" then
    .failure "下書き状態の注文のみ確定できます"
  else if order.lines.length == 0 then
    .failure "明細が空の注文は確定できません"
  else
    match orderSchemaParse { order with status := .placed now, updatedAt := now } with
    | .error m => .failure m
    | .ok updated => .success updated

/-- The `markAsPaid(order)`: placed-only guard, then set the status to `paid`
and re-validate. -/
def markAsPaid (order : Order) (now : Date) : Result Order :=
  if order.status.tag ≠ "placed" then
    .failure "確定済みの注文のみ支払い済みにできます"
  else
    match orderSchemaParse { order with status := .paid now, updatedAt := now } with
    | .error m => .failure m
    | .ok updated => .success updated

/-! ## Shipping domain (`src/domain/shipping/types.ts`) -/

/-- The `Address` (`AddressSchema`): five length-bounded strings, the postal code
matching `^\d{3}-\d{4}$`. -/
structure Address where
  street : String
  city : String
  state : String
  postalCode : String
  country : String
deriving DecidableEq, Repr

/-- The postal-code regex `^\d{3}-\d{4}$`. -/
def postalCodeOK (s : String) : Bool :=
  match s.toList with
  | [a, b, c, h, d, e, f, g] =>
    a.isDigit && b.isDigit && c.isDigit && h == '-'
      && d.isDigit && e.isDigit && f.isDigit && g.isDigit
  | _ => false

/-- The runtime checks of `z.string().min(1).max(50)`. -/
def parseName50 (s : String) : Except String Unit :=
  if s.length < 1 then .error "String must contain at least 1 character(s)"
  else if 50 < s.length then .error "String must contain at most 50 character(s)"
  else .ok ()

/-- The `AddressSchema.parse` on a structured value: field checks in key order
(street 1..100, city 1..50, state 1..50, postalCode regex, country 1..50),
returning the first issue's message; zod returns the value unchanged. -/
def addressParse (a : Address) : Except String Address :=
  match parseName100 a.street with
  | .error m => .error m
  | .ok _ =>
  match parseName50 a.city with
  | .error m => .error m
  | .ok _ =>
  match parseName50 a.state with
  | .error m => .error m
  | .ok _ =>
  if ¬ postalCodeOK a.postalCode then
    .error "郵便番号は000-0000の形式でなければなりません"
  else
  match parseName50 a.country with
  | .error m => .error m
  | .ok _ => .ok a

/-- The `ShippingMethod` (`ShippingMethodSchema`): standard / express / overnight. -/
inductive ShippingMethod where
  | standard
  | express
  | overnight
deriving DecidableEq, Repr

/-- The `ShippingStatus` (`ShippingStatusSchema`): discriminated union on `type`. -/
inductive ShippingStatus where
  | pending
  | preparing
  | shipped (shippedAt : Date) (trackingNumber : String)
  | delivered (deliveredAt : Date)
  | failed (failedAt : Date) (reason : String)
deriving DecidableEq, Repr

/-- The discriminant string, i.e. `status.type` in the TS code. -/
def ShippingStatus.tag : ShippingStatus → String
  | .pending => "pending"
  | .preparing => "preparing"
  | .shipped _ _ => "shipped"
  | .delivered _ => "delivered"
  | .failed _ _ => "failed"

/-- The `Shipping` (`ShippingSchema`): the aggregate-root snapshot;
`estimatedDeliveryDate` is `z.date().optional()`. -/
structure Shipping where
  id : String
  orderId : String
  shippingAddress : Address
  method : ShippingMethod
  status : ShippingStatus
  estimatedDeliveryDate : Option Date
  createdAt : Date
  updatedAt : Date
deriving DecidableEq, Repr

/-- The `ShippingSchema.safeParse` on a structured snapshot: the id fields are
`z.custom` (no check), method/status/date fields are structural in this
embedding, so the address checks are the only runtime validation. -/
def shippingSchemaParse (s : Shipping) : Except String Shipping :=
  match addressParse s.shippingAddress with
  | .error m => .error m
  | .ok _ => .ok s

/-! ## Shipping domain functions (`src/domain/shipping/functions.ts`) -/

/-- One day in milliseconds on the model clock. -/
def dayMs : Int := 86400000

/-- The `calculateEstimatedDeliveryDate(method, from)`: `date.setDate(date.getDate()+n)`
with n = 7 / 3 / 1, i.e. adding exactly n days on the linear model clock. -/
def calculateEstimatedDeliveryDate (method : ShippingMethod) (from_ : Date) : Date :=
  match method with
  | .standard => from_ + 7 * dayMs
  | .express => from_ + 3 * dayMs
  | .overnight => from_ + 1 * dayMs

/-- The `createShipping(orderId, shippingAddress, method)`: constructs a pending
shipment with the estimated delivery date, then `ShippingSchema.safeParse`;
on schema failure it `throw`s (modelled as `.error` with the thrown message,
using the fallback text when the issue message is absent — zod always
supplies one, so the first issue's message is what is thrown). -/
def createShipping (orderId : String) (shippingAddress : Address)
    (method : ShippingMethod) (newId : String) (now : Date) :
    Except String Shipping :=
  let estimatedDeliveryDate := calculateEstimatedDeliveryDate method now
  let shipping : Shipping :=
    { id := newId
      orderId := orderId
      shippingAddress := shippingAddress
      method := method
      status := .pending
      estimatedDeliveryDate := some estimatedDeliveryDate
      createdAt := now
      updatedAt := now }
  match shippingSchemaParse shipping with
  | .error m => .error m
  | .ok s => .ok s

/-- The `startPreparation(shipping)`: pending-only guard, then set `preparing`
and re-validate with `safeParse`. -/
def startPreparation (shipping : Shipping) (now : Date) : Result Shipping :=
  if shipping.status.tag ≠ "pending" then
    .failure "保留中の配送のみ準備を開始できます"
  else
    match shippingSchemaParse { shipping with status := .preparing, updatedAt := now } with
    | .error m => .failure m
    | .ok s => .success s

/-- The `shipOrder(shipping)`: preparing-only guard, then set `shipped` with the
generated tracking number and re-validate. -/
def shipOrder (shipping : Shipping) (now : Date) (trackingNumber : String) :
    Result Shipping :=
  if shipping.status.tag ≠ "preparing" then
    .failure "準備中の配送のみ発送できます"
  else
    match shippingSchemaParse { shipping with
        status := .shipped now trackingNumber, updatedAt := now } with
    | .error m => .failure m
    | .ok s => .success s

/-- The `deliverShipment(shipping)`: shipped-only guard, then set `delivered`
and re-validate. -/
def deliverShipment (shipping : Shipping) (now : Date) : Result Shipping :=
  if shipping.status.tag ≠ "shipped" then
    .failure "発送済みの配送のみ配達できます"
  else
    match shippingSchemaParse { shipping with status := .delivered now, updatedAt := now } with
    | .error m => .failure m
    | .ok s => .success s

/-! ## Result-composition layer (`src/shared/types.ts`)

A JS promise is modelled as a deterministic computation threading an
ambient state `σ` (used below to record collaborator invocations) and
resolving (`Except.ok`) or rejecting (`Except.error` with a `Reason`).
A `TaskEither` is a promise whose resolved value is an `Either`. -/

/-- The `Either<E, A>`: `{ type: "left"; value: E } | { type: "right"; value: A }`. -/
inductive Either (E A : Type) where
  | left (value : E)
  | right (value : A)
deriving DecidableEq, Repr

/-- A promise: runs from a state, resolves with `A` or rejects with a `Reason`. -/
def Promise (σ A : Type) := σ → Except Reason A × σ

/-- The `TaskEither<E, A> = Task<Either<E, A>>`. -/
def TaskEither (σ E A : Type) := Promise σ (Either E A)

/-- The `Promise.resolve(a)`. -/
def promisePure {σ A : Type} (a : A) : Promise σ A := fun s => (.ok a, s)

/-- The `p.then(f)`: runs `f` on resolution, propagates rejection. -/
def promiseBind {σ A B : Type} (p : Promise σ A) (f : A → Promise σ B) : Promise σ B :=
  fun s =>
    match p s with
    | (.ok a, s₁) => f a s₁
    | (.error r, s₁) => (.error r, s₁)

namespace taskEither

/-- The `taskEither.fromEither`: `Promise.resolve(either)`. -/
def fromEither {σ E A : Type} (e : Either E A) : TaskEither σ E A :=
  fun s => (.ok e, s)

/-- The `taskEither.fromPromise(promise, onReject)`:
`promise.then(right).catch(reason => left(onReject(reason)))`. -/
def fromPromise {σ E A : Type} (p : Promise σ A) (onReject : Reason → E) :
    TaskEither σ E A :=
  fun s =>
    match p s with
    | (.ok a, s₁) => (.ok (.right a), s₁)
    | (.error r, s₁) => (.ok (.left (onReject r)), s₁)

/-- The `taskEither.map(f)`: `task.then(either => right(f(a)) or pass the left
through)`; a rejected task stays rejected (`then` with no `catch`). -/
def map {σ E A B : Type} (f : A → B) (task : TaskEither σ E A) : TaskEither σ E B :=
  fun s =>
    match task s with
    | (.ok (.right a), s₁) => (.ok (.right (f a)), s₁)
    | (.ok (.left e), s₁) => (.ok (.left e), s₁)
    | (.error r, s₁) => (.error r, s₁)

/-- The `taskEither.chain(f)`: `task.then(either => either.type === "right" ?
f(either.value) : Promise.resolve(either))`; a rejected task stays rejected,
and a callback that throws rejects the result (the callback's own
`Except.error` outcome). -/
def chain {σ E A B : Type} (f : A → TaskEither σ E B) (task : TaskEither σ E A) :
    TaskEither σ E B :=
  fun s =>
    match task s with
    | (.ok (.right a), s₁) => f a s₁
    | (.ok (.left e), s₁) => (.ok (.left e), s₁)
    | (.error r, s₁) => (.error r, s₁)

end taskEither

/-! ## Collaborator contracts

The repository / event-bus collaborators, as consumed by the orchestrators:
each operation is a promise with access to the ambient state `σ`, so
implementations can record invocations or reject. -/

/-- The slice of `OrderRepository` the orchestrators call. -/
structure OrderRepositoryM (σ : Type) where
  save : Order → Promise σ Unit
  findById : String → Promise σ (Option Order)

/-- The slice of `ShippingRepository` the orchestrators call. -/
structure ShippingRepositoryM (σ : Type) where
  save : Shipping → Promise σ Unit
  findByOrderId : String → Promise σ (Option Shipping)

/-- The `OrderPlacedEvent` (`src/domain/events.ts`): aggregate id, customer id,
total amount, occurrence timestamp. -/
structure OrderPlacedEvent where
  aggregateId : String
  customerId : String
  totalAmount : ℚ
  occurredAt : Date
deriving DecidableEq, Repr

/-- The `EventBus` interface from `src/application/placeOrderCommand.ts`. -/
structure EventBusM (σ : Type) where
  publish : OrderPlacedEvent → Promise σ Unit

/-! ## Place-order orchestrator (`src/application/placeOrderCommand.ts`) -/

/-- The `PlaceOrderCommand`: `{ lines: z.array(OrderLineSchema).min(1) }`. -/
structure PlaceOrderCommand where
  lines : List OrderLine
deriving DecidableEq, Repr

/-- The `PlaceOrderError`: validation / business-rule / repository error union. -/
inductive PlaceOrderError where
  | validation_error (message : String)
  | business_rule_violation (message : String)
  | repository_error (message : String) (cause : Option Reason)
deriving DecidableEq, Repr

/-- The `PlaceOrderCommandSchema.parse`: the array minimum is checked before the
per-element `OrderLineSchema` checks; first issue message is reported. -/
def placeOrderCommandParse (c : PlaceOrderCommand) : Except String Unit :=
  if c.lines.length < 1 then .error "Array must contain at least 1 element(s)"
  else parseLines c.lines

/-- The `for (const line of command.lines)` fold in step 2 of the handler:
add each line in turn, returning the first failure. -/
def addLines (now : Date) (order : Order) : List OrderLine → Result Order
  | [] => .success order
  | l :: ls =>
    match addOrderLine order l now with
    | .failure e => .failure e
    | .success o => addLines now o ls

/-- The `createPlaceOrderCommandHandler(orderRepository, eventBus)(command)`:
validate the command shape, then pipe
create order → add lines → place → save → publish, returning the order id.
The generated customer/order ids and the clock are explicit parameters. -/
def createPlaceOrderCommandHandler {σ : Type} (orderRepository : OrderRepositoryM σ)
    (eventBus : EventBusM σ) (newCustomerId newOrderId : String) (now : Date)
    (command : PlaceOrderCommand) : TaskEither σ PlaceOrderError String :=
  match placeOrderCommandParse command with
  | .error m => taskEither.fromEither (.left (.validation_error m))
  | .ok _ =>
    taskEither.chain (fun (order : Order) =>
      taskEither.fromPromise
        (promiseBind (eventBus.publish
            { aggregateId := order.id
              customerId := order.customerId
              totalAmount := order.totalAmount
              occurredAt := now })
          (fun _ => promisePure order.id))
        (fun error => .repository_error "イベントの発行中にエラーが発生しました" (some error)))
    (taskEither.chain (fun (order : Order) =>
      taskEither.fromPromise
        (promiseBind (orderRepository.save order) (fun _ => promisePure order))
        (fun error => .repository_error "注文の保存中にエラーが発生しました" (some error)))
    (taskEither.chain (fun (order : Order) =>
      match placeOrder order now with
      | .failure e => taskEither.fromEither (.left (.business_rule_violation e))
      | .success o => taskEither.fromEither (.right o))
    (taskEither.chain (fun (order : Order) =>
      match addLines now order command.lines with
      | .failure e => taskEither.fromEither (.left (.business_rule_violation e))
      | .success o => taskEither.fromEither (.right o))
    (taskEither.fromEither (.right (createOrder newCustomerId newOrderId now))))))

/-! ## Create-shipment orchestrator (`src/application/createShippingCommand.ts`) -/

/-- The `CreateShippingCommand`: order id, shipping address, method. -/
structure CreateShippingCommand where
  orderId : String
  shippingAddress : Address
  method : ShippingMethod
deriving DecidableEq, Repr

/-- The `CreateShippingError`: validation / not-found / business-rule /
repository error union. -/
inductive CreateShippingError where
  | validation_error (message : String)
  | not_found (message : String)
  | business_rule_violation (message : String)
  | repository_error (message : String) (cause : Option Reason)
deriving DecidableEq, Repr

/-- The `CreateShippingCommandSchema.parse`: `orderId` is `z.custom` (no check),
`method` is structural, so the address checks are the runtime validation. -/
def createShippingCommandParse (c : CreateShippingCommand) : Except String Unit :=
  match addressParse c.shippingAddress with
  | .error m => .error m
  | .ok _ => .ok ()

/-- The `createCreateShippingCommandHandler(orderRepository, shippingRepository,
eventBus)(command)`: validate the command shape, then pipe
load order → existence check → paid check → load existing shipment →
duplicate check → construct shipment (a throw here rejects the promise) →
save, returning the shipping id. The generated shipping id and the clock are
explicit parameters; the event bus is injected but never used by the source. -/
def createCreateShippingCommandHandler {σ : Type} (orderRepository : OrderRepositoryM σ)
    (shippingRepository : ShippingRepositoryM σ) (newShippingId : String) (now : Date)
    (command : CreateShippingCommand) : TaskEither σ CreateShippingError String :=
  match createShippingCommandParse command with
  | .error m => taskEither.fromEither (.left (.validation_error m))
  | .ok _ =>
    taskEither.chain (fun (shipping : Shipping) =>
      taskEither.fromPromise
        (promiseBind (shippingRepository.save shipping) (fun _ => promisePure shipping.id))
        (fun error => .repository_error "配送の保存中にエラーが発生しました" (some error)))
    (taskEither.chain (fun (_ : Unit) =>
      match createShipping command.orderId command.shippingAddress command.method
          newShippingId now with
      | .error m => fun s => (.error m, s)
      | .ok shipping => taskEither.fromEither (.right shipping))
    (taskEither.chain (fun (existingShipping : Option Shipping) =>
      match existingShipping with
      | some _ => taskEither.fromEither (.left (.business_rule_violation
          ("注文ID " ++ command.orderId ++ " の配送は既に存在します")))
      | none => taskEither.fromEither (.right ()))
    (taskEither.chain (fun (_ : Order) =>
      taskEither.fromPromise (shippingRepository.findByOrderId command.orderId)
        (fun error => .repository_error "配送情報の確認中にエラーが発生しました" (some error)))
    (taskEither.chain (fun (order : Order) =>
      if order.status.tag ≠ "paid" then
        taskEither.fromEither (.left (.business_rule_violation "支払い済みの注文のみ配送できます"))
      else taskEither.fromEither (.right order))
    (taskEither.chain (fun (foundOrder : Option Order) =>
      match foundOrder with
      | none => taskEither.fromEither (.left (.not_found
          ("注文ID " ++ command.orderId ++ " が見つかりません")))
      | some order => taskEither.fromEither (.right order))
    (taskEither.fromPromise (orderRepository.findById command.orderId)
      (fun error => .repository_error "注文の取得中にエラーが発生しました" (some error))))))))

/-! ## Test doubles and concrete snapshots

Pure in-memory collaborator implementations, mirroring the repository's
in-memory repositories: reads are backed by a lookup function, and the
shipping repository records each saved snapshot in the ambient state, so
theorems can observe whether and what `save` was invoked with. -/

/-- An order repository backed by a pure lookup; never rejects. -/
def pureOrderRepo (findO : String → Option Order) : OrderRepositoryM (List Shipping) :=
  { save := fun _ s => (.ok (), s)
    findById := fun oid s => (.ok (findO oid), s) }

/-- A shipping repository backed by a pure lookup whose `save` appends the
saved snapshot to the ambient state; never rejects. -/
def recordingShippingRepo (findS : String → Option Shipping) :
    ShippingRepositoryM (List Shipping) :=
  { save := fun sh s => (.ok (), s ++ [sh])
    findByOrderId := fun oid s => (.ok (findS oid), s) }

/-- A probe step for exercising the combinators: resolves with its input and
bumps an invocation counter in the ambient state. -/
def probeStep (n : Nat) : TaskEither Nat String Nat :=
  fun k => (.ok (.right n), k + 1)

/-- An order repository whose every call rejects — a faulting collaborator. -/
def rejectingOrderRepo : OrderRepositoryM Nat :=
  { save := fun _ k => (.error "boom", k)
    findById := fun _ k => (.error "boom", k) }

/-- A shipping repository that finds nothing and saves successfully. -/
def okShippingRepo : ShippingRepositoryM Nat :=
  { save := fun _ k => (.ok (), k)
    findByOrderId := fun _ k => (.ok none, k) }

/-- An event bus that publishes successfully. -/
def okEventBus : EventBusM Nat :=
  { publish := fun _ k => (.ok (), k) }

/-- A promise that always rejects. -/
def rejectingPromise : Promise Nat Nat :=
  fun k => (.error "boom", k)

/-- A concrete valid address. -/
def demoAddress : Address :=
  { street := "1-2-3 Chiyoda"
    city := "Chiyoda"
    state := "Tokyo"
    postalCode := "100-0001"
    country := "Japan" }

/-- A concrete order line (price 1500, quantity 2). -/
def demoLine : OrderLine :=
  { productId := "prod-1", productName := "Widget", unitPrice := 1500, quantity := 2 }

/-- A second concrete order line (price 2800, quantity 1). -/
def demoLine2 : OrderLine :=
  { productId := "prod-2", productName := "Gadget", unitPrice := 2800, quantity := 1 }

/-- A concrete paid order holding `demoLine`. -/
def demoPaidOrder : Order :=
  { id := "order-1"
    customerId := "cust-1"
    lines := [demoLine]
    status := .paid 2
    totalAmount := 3000
    createdAt := 0
    updatedAt := 2 }

/-- A concrete pending shipment at `demoAddress`. -/
def demoPending : Shipping :=
  { id := "ship-1"
    orderId := "order-1"
    shippingAddress := demoAddress
    method := .standard
    status := .pending
    estimatedDeliveryDate := some (7 * dayMs)
    createdAt := 0
    updatedAt := 0 }

/-- A concrete preparing shipment at `demoAddress`. -/
def demoPreparing : Shipping :=
  { demoPending with status := .preparing }

/-- A concrete shipped shipment at `demoAddress`. -/
def demoShipped : Shipping :=
  { demoPending with status := .shipped 1 "JP123456789" }

/-- A concrete line whose price pushes any total past the price maximum. -/
def demoOverLine : OrderLine :=
  { productId := "prod-9", productName := "Gold bar", unitPrice := 999999, quantity := 2 }

/-- A concrete draft order holding `demoLine`. -/
def demoDraftOrder : Order :=
  { id := "order-1"
    customerId := "cust-1"
    lines := [demoLine]
    status := .draft
    totalAmount := 3000
    createdAt := 0
    updatedAt := 0 }

/-- A concrete create-shipment command. -/
def demoShipCommand : CreateShippingCommand :=
  { orderId := "order-1", shippingAddress := demoAddress, method := .standard }

/-- A concrete place-order command with one line. -/
def demoPlaceCommand : PlaceOrderCommand :=
  { lines := [demoLine] }

/-- The draft order the place-order pipeline builds from `demoPlaceCommand`. -/
def demoBuiltOrder : Order :=
  { id := "order-9"
    customerId := "cust-9"
    lines := [demoLine]
    status := .draft
    totalAmount := 3000
    createdAt := 0
    updatedAt := 0 }

/-- The `demoBuiltOrder` after placement at time 0. -/
def demoBuiltPlaced : Order :=
  { demoBuiltOrder with status := .placed 0 }

/-- A concrete placed order holding `demoLine`. -/
def demoPlacedOrder : Order :=
  { id := "order-1"
    customerId := "cust-1"
    lines := [demoLine]
    status := .placed 1
    totalAmount := 3000
    createdAt := 0
    updatedAt := 1 }

/-! # Theorems -/

/-! ## Helper lemmas -/

/-- The `OrderSchema.parse` returns the accepted snapshot unchanged. -/
theorem orderSchemaParse_ok {o o₂ : Order} (h : orderSchemaParse o = .ok o₂) : o₂ = o := by
  unfold orderSchemaParse at h
  split at h <;> simp_all

/-- The `ShippingSchema.safeParse` returns the accepted snapshot unchanged. -/
theorem shippingSchemaParse_ok {s s₂ : Shipping} (h : shippingSchemaParse s = .ok s₂) :
    s₂ = s := by
  unfold shippingSchemaParse at h
  split at h <;> simp_all

/-- The `AddressSchema.parse` returns the accepted address unchanged. -/
theorem addressParse_ok {a b : Address} (h : addressParse a = .ok b) : b = a := by
  unfold addressParse at h
  split at h <;> try simp_all
  split at h <;> try simp_all
  split at h <;> try simp_all
  split at h <;> try simp_all
  split at h <;> simp_all

/-- The `chain` passes a resolved failure through unchanged, for any step
function and without touching the ambient state beyond what the failing
computation already did. -/
theorem chain_left {σ E A B : Type} (f : A → TaskEither σ E B) (t : TaskEither σ E A)
    (e : E) (s s₁ : σ) (h : t s = (.ok (.left e), s₁)) :
    taskEither.chain f t s = (.ok (.left e), s₁) := by
  simp [taskEither.chain, h]

/-- The `map` passes a resolved failure through unchanged. -/
theorem map_left {σ E A B : Type} (g : A → B) (t : TaskEither σ E A)
    (e : E) (s s₁ : σ) (h : t s = (.ok (.left e), s₁)) :
    taskEither.map g t s = (.ok (.left e), s₁) := by
  simp [taskEither.map, h]

/-- The `chain` passes a rejection through unchanged (`then` without `catch`). -/
theorem chain_reject {σ E A B : Type} (f : A → TaskEither σ E B) (t : TaskEither σ E A)
    (r : Reason) (s s₁ : σ) (h : t s = (.error r, s₁)) :
    taskEither.chain f t s = (.error r, s₁) := by
  simp [taskEither.chain, h]

/-- The `chain` hands a resolved success to the step function. -/
theorem chain_right {σ E A B : Type} (f : A → TaskEither σ E B) (t : TaskEither σ E A)
    (a : A) (s s₁ : σ) (h : t s = (.ok (.right a), s₁)) :
    taskEither.chain f t s = f a s₁ := by
  simp [taskEither.chain, h]

/-- The `createOrder`'s snapshot always passes `OrderSchema.parse`
(there are no lines to check), so modelling it as total is faithful. -/
theorem createOrder_parses (customerId newId : String) (now : Date) :
    orderSchemaParse (createOrder customerId newId now) =
      .ok (createOrder customerId newId now) := rfl

/-- The only order status whose discriminant is `"draft"` is `draft`. -/
theorem OrderStatus.tag_draft {st : OrderStatus} (h : st.tag = "draft") : st = .draft := by
  cases st <;> simp_all [OrderStatus.tag]

/-- The only shipping status whose discriminant is `"pending"` is `pending`. -/
theorem ShippingStatus.tag_pending {st : ShippingStatus} (h : st.tag = "pending") :
    st = .pending := by
  cases st <;> simp_all [ShippingStatus.tag]

/-! ## C5 — addOrderLine failure cases -/

/-- C5. For every order whose status is not draft and every line,
`addOrderLine` fails with the business-rule message, and for every draft
order and line whose productId already appears in the order's lines,
`addOrderLine` fails with the duplicate-product message. In both cases the
result is a bare `failure` carrying only a message — no new snapshot is
produced, and the input order is untouched (the embedding is a pure
function of the input, mirroring the spread-based, non-mutating source). -/
theorem addOrderLine_failure_cases (order : Order) (line : OrderLine) (now : Date) :
    (order.status.tag ≠ "draft" →
      addOrderLine order line now = .failure "下書き状態の注文のみに明細を追加できます")
    ∧ (order.status.tag = "draft" → (∃ l ∈ order.lines, l.productId = line.productId) →
      addOrderLine order line now =
        .failure ("商品 " ++ line.productName ++ " は既に注文に含まれています")) := by
  constructor
  · intro h
    unfold addOrderLine
    rw [if_pos h]
  · intro hdraft hdup
    obtain ⟨l, hl, hid⟩ := hdup
    unfold addOrderLine
    rw [if_neg (not_not_intro hdraft)]
    have hfind : (order.lines.find? (fun l => l.productId == line.productId)).isSome := by
      rw [List.find?_isSome]
      exact ⟨l, hl, by simp [hid]⟩
    rw [if_pos hfind]

/-- Witness for C5 at concrete inputs: a paid order rejects any line, and a
draft order rejects a line whose product is already present. -/
theorem addOrderLine_failure_cases_witness :
    (demoPaidOrder.status.tag ≠ "draft"
      ∧ addOrderLine demoPaidOrder demoLine2 5 =
          .failure "下書き状態の注文のみに明細を追加できます")
    ∧ (demoDraftOrder.status.tag = "draft"
      ∧ (∃ l ∈ demoDraftOrder.lines, l.productId = demoLine.productId)
      ∧ addOrderLine demoDraftOrder demoLine 5 =
          .failure ("商品 " ++ demoLine.productName ++ " は既に注文に含まれています")) :=
  ⟨⟨by decide, (addOrderLine_failure_cases demoPaidOrder demoLine2 5).1 (by decide)⟩,
   ⟨by decide, by decide,
    (addOrderLine_failure_cases demoDraftOrder demoLine 5).2 (by decide) (by decide)⟩⟩

/-! ## C6 — placeOrder / markAsPaid preconditions -/

/-- C6. `placeOrder` never succeeds when the order's lines are empty or its
status is not draft, and on success it sets the status to `placed` with the
placement timestamp; `markAsPaid` never succeeds unless the prior status is
exactly `placed`, and on success it sets the status to `paid` with the
payment timestamp. -/
theorem placeOrder_markAsPaid_spec (order : Order) (now : Date) (o₁ o₂ : Order) :
    (placeOrder order now = .success o₁ →
      order.status.tag = "draft" ∧ order.lines ≠ [] ∧ o₁.status = .placed now)
    ∧ (markAsPaid order now = .success o₂ →
      order.status.tag = "placed" ∧ o₂.status = .paid now) := by
  constructor
  · intro h
    unfold placeOrder at h
    by_cases hA : order.status.tag ≠ "draft"
    · rw [if_pos hA] at h
      exact absurd h (by simp)
    · rw [if_neg hA] at h
      by_cases hB : (order.lines.length == 0) = true
      · rw [if_pos hB] at h
        exact absurd h (by simp)
      · rw [if_neg hB] at h
        cases heq : orderSchemaParse
            { order with status := .placed now, updatedAt := now } with
        | error m => rw [heq] at h; exact absurd h (by simp)
        | ok updated =>
          rw [heq] at h
          have h₁ := orderSchemaParse_ok heq
          injection h with h₂
          subst h₂
          refine ⟨not_not.mp hA, ?_, by rw [h₁]⟩
          intro hnil
          exact hB (by simp [hnil])
  · intro h
    unfold markAsPaid at h
    by_cases hA : order.status.tag ≠ "placed"
    · rw [if_pos hA] at h
      exact absurd h (by simp)
    · rw [if_neg hA] at h
      cases heq : orderSchemaParse
          { order with status := .paid now, updatedAt := now } with
      | error m => rw [heq] at h; exact absurd h (by simp)
      | ok updated =>
        rw [heq] at h
        have h₁ := orderSchemaParse_ok heq
        injection h with h₂
        subst h₂
        exact ⟨not_not.mp hA, by rw [h₁]⟩

/-- Witness for C6 at concrete inputs: placing a draft order with one line
succeeds and yields `placed`, and marking a placed order succeeds and yields
`paid`. -/
theorem placeOrder_markAsPaid_spec_witness :
    (placeOrder demoDraftOrder 5 =
      .success { demoDraftOrder with status := .placed 5, updatedAt := 5 })
    ∧ (demoDraftOrder.status.tag = "draft" ∧ demoDraftOrder.lines ≠ []
        ∧ ({ demoDraftOrder with status := OrderStatus.placed 5, updatedAt := 5 } : Order).status
            = .placed 5)
    ∧ (markAsPaid demoPlacedOrder 7 =
      .success { demoPlacedOrder with status := .paid 7, updatedAt := 7 })
    ∧ (demoPlacedOrder.status.tag = "placed"
        ∧ ({ demoPlacedOrder with status := OrderStatus.paid 7, updatedAt := 7 } : Order).status
            = .paid 7) :=
  ⟨by decide,
   (placeOrder_markAsPaid_spec demoDraftOrder 5
      { demoDraftOrder with status := .placed 5, updatedAt := 5 }
      { demoDraftOrder with status := .placed 5, updatedAt := 5 }).1 (by decide),
   by decide,
   (placeOrder_markAsPaid_spec demoPlacedOrder 7
      { demoPlacedOrder with status := .paid 7, updatedAt := 7 }
      { demoPlacedOrder with status := .paid 7, updatedAt := 7 }).2 (by decide)⟩

/-! ## C7 — shipping status transitions -/

/-- C7. Each shipping transition function accepts exactly one prior status:
`startPreparation` succeeds only from `pending` (yielding `preparing`),
`shipOrder` only from `preparing` (yielding `shipped`), and
`deliverShipment` only from `shipped` (yielding `delivered`) — so the status
only ever advances Pending→Preparing→Shipped→Delivered. In particular
`shipOrder` applied to a pending shipment fails with the business-rule
message; the failure carries no snapshot, and the input shipment (hence its
status) is untouched, the embedding being a pure function of its input. -/
theorem shipping_transition_guards (s : Shipping) (now : Date) (tn : String)
    (s₁ s₂ s₃ : Shipping) :
    (startPreparation s now = .success s₁ →
      s.status = .pending ∧ s₁.status = .preparing)
    ∧ (shipOrder s now tn = .success s₂ →
      s.status.tag = "preparing" ∧ s₂.status = .shipped now tn)
    ∧ (deliverShipment s now = .success s₃ →
      s.status.tag = "shipped" ∧ s₃.status = .delivered now)
    ∧ (s.status = .pending →
      shipOrder s now tn = .failure "準備中の配送のみ発送できます") := by
  refine ⟨?_, ?_, ?_, ?_⟩
  · intro h
    unfold startPreparation at h
    by_cases hA : s.status.tag ≠ "pending"
    · rw [if_pos hA] at h
      exact absurd h (by simp)
    · rw [if_neg hA] at h
      cases heq : shippingSchemaParse { s with status := .preparing, updatedAt := now } with
      | error m => rw [heq] at h; exact absurd h (by simp)
      | ok updated =>
        rw [heq] at h
        have h₁ := shippingSchemaParse_ok heq
        injection h with h₂
        subst h₂
        exact ⟨ShippingStatus.tag_pending (not_not.mp hA), by rw [h₁]⟩
  · intro h
    unfold shipOrder at h
    by_cases hA : s.status.tag ≠ "preparing"
    · rw [if_pos hA] at h
      exact absurd h (by simp)
    · rw [if_neg hA] at h
      cases heq : shippingSchemaParse
          { s with status := .shipped now tn, updatedAt := now } with
      | error m => rw [heq] at h; exact absurd h (by simp)
      | ok updated =>
        rw [heq] at h
        have h₁ := shippingSchemaParse_ok heq
        injection h with h₂
        subst h₂
        exact ⟨not_not.mp hA, by rw [h₁]⟩
  · intro h
    unfold deliverShipment at h
    by_cases hA : s.status.tag ≠ "shipped"
    · rw [if_pos hA] at h
      exact absurd h (by simp)
    · rw [if_neg hA] at h
      cases heq : shippingSchemaParse
          { s with status := .delivered now, updatedAt := now } with
      | error m => rw [heq] at h; exact absurd h (by simp)
      | ok updated =>
        rw [heq] at h
        have h₁ := shippingSchemaParse_ok heq
        injection h with h₂
        subst h₂
        exact ⟨not_not.mp hA, by rw [h₁]⟩
  · intro hp
    unfold shipOrder
    rw [if_pos (by rw [hp]; decide)]

/-- Witness for C7 at concrete inputs: each transition fires from its one
admissible prior status, and `shipOrder` rejects a pending shipment. -/
theorem shipping_transition_guards_witness :
    (startPreparation demoPending 5 =
      .success { demoPending with status := .preparing, updatedAt := 5 })
    ∧ (demoPending.status = .pending
        ∧ ({ demoPending with status := ShippingStatus.preparing, updatedAt := 5 }
            : Shipping).status = .preparing)
    ∧ (shipOrder demoPreparing 5 "JP000000001" =
      .success { demoPreparing with status := .shipped 5 "JP000000001", updatedAt := 5 })
    ∧ (demoPreparing.status.tag = "preparing")
    ∧ (deliverShipment demoShipped 9 =
      .success { demoShipped with status := .delivered 9, updatedAt := 9 })
    ∧ (demoShipped.status.tag = "shipped")
    ∧ (demoPending.status = .pending
        ∧ shipOrder demoPending 5 "JP000000001" = .failure "準備中の配送のみ発送できます") :=
  ⟨by decide,
   (shipping_transition_guards demoPending 5 "JP000000001"
      { demoPending with status := .preparing, updatedAt := 5 } demoPending
      demoPending).1 (by decide),
   by decide,
   ((shipping_transition_guards demoPreparing 5 "JP000000001" demoPreparing
      { demoPreparing with status := .shipped 5 "JP000000001", updatedAt := 5 }
      demoPreparing).2.1 (by decide)).1,
   by decide,
   ((shipping_transition_guards demoShipped 9 "JP000000001" demoShipped demoShipped
      { demoShipped with status := .delivered 9, updatedAt := 9 }).2.2.1 (by decide)).1,
   by decide,
   (shipping_transition_guards demoPending 5 "JP000000001" demoPending demoPending
      demoPending).2.2.2 (by decide)⟩

/-! ## C10 — total overflow is caught at the addOrderLine boundary -/

/-- C10. For every draft order and fresh line whose addition pushes the
recomputed total past the 999,999.99 price maximum, `addOrderLine` returns a
failure with the generic update-error message instead of throwing, and
produces no snapshot: the plain `Error` thrown inside `calculateTotalAmount`
is caught by `addOrderLine`'s `try/catch`, and being no `ZodError` it is
mapped to the generic message. -/
theorem addOrderLine_overflow (order : Order) (line : OrderLine) (now : Date)
    (hdraft : order.status.tag = "draft")
    (hfresh : ∀ l ∈ order.lines, l.productId ≠ line.productId)
    (hover : 999999.99 < sumAmount (order.lines ++ [line])) :
    addOrderLine order line now = .failure "注文の更新中に不明なエラーが発生しました" := by
  have h0 : ¬ sumAmount (order.lines ++ [line]) < 0 := by linarith
  have hcalc : calculateTotalAmount (order.lines ++ [line]) =
      .error "価格は999,999.99を超えることはできません" := by
    unfold calculateTotalAmount createPrice
    rw [if_neg h0, if_pos hover]
  have hfind : (order.lines.find? (fun l => l.productId == line.productId)).isSome = false := by
    rw [Bool.eq_false_iff]
    intro hsome
    rw [List.find?_isSome] at hsome
    obtain ⟨x, hx, hpx⟩ := hsome
    exact hfresh x hx (by simpa using hpx)
  simp only [addOrderLine]
  rw [if_neg (not_not_intro hdraft), if_neg (by simp [hfind]), hcalc]

/-- Witness for C10 at concrete inputs: adding a 999,999 × 2 line to a fresh
draft order yields the generic update failure. -/
theorem addOrderLine_overflow_witness :
    ((createOrder "cust-1" "order-2" 0).status.tag = "draft"
      ∧ (∀ l ∈ (createOrder "cust-1" "order-2" 0).lines, l.productId ≠ demoOverLine.productId)
      ∧ 999999.99 < sumAmount ((createOrder "cust-1" "order-2" 0).lines ++ [demoOverLine]))
    ∧ addOrderLine (createOrder "cust-1" "order-2" 0) demoOverLine 3 =
        .failure "注文の更新中に不明なエラーが発生しました" :=
  ⟨⟨by decide, by decide,
    by norm_num [sumAmount, demoOverLine, createOrder, List.foldl]⟩,
   addOrderLine_overflow (createOrder "cust-1" "order-2" 0) demoOverLine 3
     (by decide) (by decide)
     (by norm_num [sumAmount, demoOverLine, createOrder, List.foldl])⟩

/-! ## C9 — createPrice validation and rounding -/

/-- C9. For every number `p` with 0 ≤ p ≤ 999,999.99, `createPrice p`
succeeds and its value is `p` rounded to 2 decimal places — characterized
independently of the code as: the value is an integer number of hundredths
lying within half a hundredth of `p` (half-up, so the upper bound is the
attained one). For every negative `p` it fails with the non-negativity
message, and for every `p` above the maximum it fails with the maximum
message; `safeParse` never throws, which the embedding reflects by
`createPrice` being total. -/
theorem createPrice_spec (p : ℚ) :
    (0 ≤ p → p ≤ 999999.99 →
      ∃ v, createPrice p = .success v ∧ (v * 100).den = 1
        ∧ p - 1/200 < v ∧ v ≤ p + 1/200)
    ∧ (p < 0 → createPrice p = .failure "価格は負の値にできません")
    ∧ (999999.99 < p → createPrice p = .failure "価格は999,999.99を超えることはできません") := by
  refine ⟨?_, ?_, ?_⟩
  · intro h0 h1
    have hub : (mathRound (p * 100) : ℚ) ≤ p * 100 + 1/2 := by
      unfold mathRound
      exact_mod_cast Int.floor_le (p * 100 + 1/2)
    have hlb : (p * 100) - 1/2 < (mathRound (p * 100) : ℚ) := by
      unfold mathRound
      have h := Int.lt_floor_add_one (p * 100 + 1/2)
      push_cast at h
      linarith
    refine ⟨(mathRound (p * 100) : ℚ) / 100, ?_, ?_, by linarith, by linarith⟩
    · unfold createPrice
      rw [if_neg (not_lt.mpr h0), if_neg (not_lt.mpr h1)]
    · have h2 : ((mathRound (p * 100) : ℚ) / 100) * 100 = (mathRound (p * 100) : ℚ) := by
        field_simp
      rw [h2]
      exact Rat.den_intCast _
  · intro h
    unfold createPrice
    rw [if_pos h]
  · intro h
    unfold createPrice
    rw [if_neg (by linarith), if_pos h]

/-- Witness for C9 at concrete inputs: 10.555 is in range and rounds, a
negative price and an over-maximum price are rejected with their messages. -/
theorem createPrice_spec_witness :
    ((0:ℚ) ≤ 10.555 ∧ (10.555:ℚ) ≤ 999999.99
      ∧ ∃ v, createPrice 10.555 = .success v ∧ (v * 100).den = 1
          ∧ (10.555:ℚ) - 1/200 < v ∧ v ≤ (10.555:ℚ) + 1/200)
    ∧ ((-3:ℚ) < 0 ∧ createPrice (-3) = .failure "価格は負の値にできません")
    ∧ ((999999.99:ℚ) < 1000000
      ∧ createPrice 1000000 = .failure "価格は999,999.99を超えることはできません") :=
  ⟨⟨by norm_num, by norm_num,
    (createPrice_spec 10.555).1 (by norm_num) (by norm_num)⟩,
   ⟨by norm_num, (createPrice_spec (-3)).2.1 (by norm_num)⟩,
   ⟨by norm_num, (createPrice_spec 1000000).2.2 (by norm_num)⟩⟩

/-! ## C8 — createShipping construction and delivery estimate -/

/-- C8. For every order id, (schema-valid) address and shipping method,
`createShipping` succeeds and returns a shipment whose initial status is
`pending` and whose estimated delivery date minus its creation date is
exactly 7 days for `standard`, 3 for `express` and 1 for `overnight` on the
model clock. The quantification over addresses ranges over the inhabitants
of the branded `Address` type, i.e. values accepted by `AddressSchema`. -/
theorem createShipping_spec (orderId : String) (a : Address) (m : ShippingMethod)
    (newId : String) (now : Date) (h : addressParse a = .ok a) :
    ∃ sh, createShipping orderId a m newId now = .ok sh
      ∧ sh.status = .pending
      ∧ sh.createdAt = now
      ∧ ∃ d, sh.estimatedDeliveryDate = some d
        ∧ d - sh.createdAt =
            (match m with
             | .standard => 7
             | .express => 3
             | .overnight => 1) * dayMs := by
  refine ⟨{ id := newId, orderId := orderId, shippingAddress := a, method := m,
            status := .pending,
            estimatedDeliveryDate := some (calculateEstimatedDeliveryDate m now),
            createdAt := now, updatedAt := now }, ?_, rfl, rfl,
          calculateEstimatedDeliveryDate m now, rfl, ?_⟩
  · simp only [createShipping, shippingSchemaParse, h]
  · cases m <;> simp [calculateEstimatedDeliveryDate]

/-- Witness for C8 at concrete inputs: an express shipment created at
`demoAddress` is pending with a 3-day estimate. -/
theorem createShipping_spec_witness :
    addressParse demoAddress = .ok demoAddress
    ∧ ∃ sh, createShipping "order-1" demoAddress .express "ship-2" 100 = .ok sh
        ∧ sh.status = .pending
        ∧ sh.createdAt = 100
        ∧ ∃ d, sh.estimatedDeliveryDate = some d
          ∧ d - sh.createdAt =
              (match ShippingMethod.express with
               | .standard => 7
               | .express => 3
               | .overnight => 1) * dayMs :=
  ⟨by rfl, createShipping_spec "order-1" demoAddress .express "ship-2" 100 (by rfl)⟩

/-! ## C2 — taskEither short-circuits on failure -/

/-- C2. For every error `e` and step function `f`, applying
`taskEither.chain f` to a computation that resolves to `left e` resolves to
the same `left e`; `f` is never invoked — the result is independent of the
step function, and in particular the ambient state (which a probe step
would bump) is exactly the failing computation's final state. Chaining
further steps keeps resolving to the original failure, and
`taskEither.map g` passes the failure through unchanged. -/
theorem taskEither_failure_shortCircuit {σ E A B : Type} (e : E)
    (f : A → TaskEither σ E B) (g : A → B) (t : TaskEither σ E A)
    (s s₁ : σ) (h : t s = (.ok (.left e), s₁)) :
    taskEither.chain f t s = (.ok (.left e), s₁)
    ∧ (∀ f₂ : A → TaskEither σ E B, taskEither.chain f₂ t s = (.ok (.left e), s₁))
    ∧ (∀ (C : Type) (f₂ : B → TaskEither σ E C),
        taskEither.chain f₂ (taskEither.chain f t) s = (.ok (.left e), s₁))
    ∧ taskEither.map g t s = (.ok (.left e), s₁) :=
  ⟨chain_left f t e s s₁ h,
   fun f₂ => chain_left f₂ t e s s₁ h,
   fun _ f₂ => chain_left f₂ (taskEither.chain f t) e s s₁ (chain_left f t e s s₁ h),
   map_left g t e s s₁ h⟩

/-- Witness for C2 at concrete inputs: a computation resolved to
`left "boom"` short-circuits a counting probe step (the counter stays 0)
and passes through `map`. -/
theorem taskEither_failure_shortCircuit_witness :
    ((taskEither.fromEither (Either.left "boom") : TaskEither Nat String Nat) 0
        = (.ok (.left "boom"), 0))
    ∧ taskEither.chain probeStep (taskEither.fromEither (.left "boom")) 0
        = (.ok (.left "boom"), 0)
    ∧ (∀ f₂ : Nat → TaskEither Nat String Nat,
        taskEither.chain f₂ (taskEither.fromEither (.left "boom")) 0
          = (.ok (.left "boom"), 0))
    ∧ (∀ (C : Type) (f₂ : Nat → TaskEither Nat String C),
        taskEither.chain f₂ (taskEither.chain probeStep (taskEither.fromEither (.left "boom"))) 0
          = (.ok (.left "boom"), 0))
    ∧ taskEither.map (fun n => n + 1)
        (taskEither.fromEither (Either.left "boom") : TaskEither Nat String Nat) 0
        = (.ok (.left "boom"), 0) :=
  have h : (taskEither.fromEither (Either.left "boom") : TaskEither Nat String Nat) 0
      = (.ok (.left "boom"), 0) := rfl
  have hmain := taskEither_failure_shortCircuit "boom" probeStep (fun n => n + 1)
    (taskEither.fromEither (.left "boom")) 0 0 h
  ⟨h, hmain.1, hmain.2.1, hmain.2.2.1, hmain.2.2.2⟩

/-! ## C1 — the total-amount invariant -/

/-- Integers-in-`ℚ` are closed under addition (stated via denominators). -/
theorem den_one_add {x y : ℚ} (hx : x.den = 1) (hy : y.den = 1) : (x + y).den = 1 := by
  rw [← Rat.coe_int_num_of_den_eq_one hx, ← Rat.coe_int_num_of_den_eq_one hy,
    ← Int.cast_add]
  exact Rat.den_intCast _

/-- Integers-in-`ℚ` are closed under multiplication. -/
theorem den_one_mul {x y : ℚ} (hx : x.den = 1) (hy : y.den = 1) : (x * y).den = 1 := by
  rw [← Rat.coe_int_num_of_den_eq_one hx, ← Rat.coe_int_num_of_den_eq_one hy,
    ← Int.cast_mul]
  exact Rat.den_intCast _

/-- A fold of whole-hundredths prices times integer quantities stays a whole
number of hundredths. -/
theorem sumAmount_den : ∀ (lines : List OrderLine) (acc : ℚ), (acc * 100).den = 1 →
    (∀ l ∈ lines, (l.unitPrice * 100).den = 1 ∧ l.quantity.den = 1) →
    ((lines.foldl (fun sum l => sum + l.unitPrice * l.quantity) acc) * 100).den = 1
  | [], _, hacc, _ => hacc
  | l :: ls, acc, hacc, h => by
    rw [List.foldl_cons]
    refine sumAmount_den ls (acc + l.unitPrice * l.quantity) ?_
      (fun x hx => h x (List.mem_cons_of_mem _ hx))
    have hl := h l (List.mem_cons_self _ _)
    have hrw : (acc + l.unitPrice * l.quantity) * 100
        = acc * 100 + (l.unitPrice * 100) * l.quantity := by ring
    rw [hrw]
    exact den_one_add hacc (den_one_mul hl.1 hl.2)

/-- The `createPrice` is the identity on whole numbers of hundredths: rounding a
value that is already at 2 decimal places changes nothing. -/
theorem createPrice_fixed {x v : ℚ} (hden : (x * 100).den = 1)
    (h : createPrice x = .success v) : v = x := by
  unfold createPrice at h
  by_cases h0 : x < 0
  · rw [if_pos h0] at h
    exact absurd h (by simp)
  · rw [if_neg h0] at h
    by_cases h1 : 999999.99 < x
    · rw [if_pos h1] at h
      exact absurd h (by simp)
    · rw [if_neg h1] at h
      injection h with hv
      subst hv
      have hx : ((x * 100).num : ℚ) = x * 100 := Rat.coe_int_num_of_den_eq_one hden
      have hround : mathRound (x * 100) = (x * 100).num := by
        unfold mathRound
        rw [← hx, Int.floor_int_add]
        norm_num
      rw [hround, hx]
      ring

/-- Inverting `calculateTotalAmount`: a returned total is a successful
`createPrice` of the line sum. -/
theorem calculateTotalAmount_ok {ls : List OrderLine} {v : ℚ}
    (h : calculateTotalAmount ls = .ok v) : createPrice (sumAmount ls) = .success v := by
  unfold calculateTotalAmount at h
  cases hc : createPrice (sumAmount ls) with
  | failure e => rw [hc] at h; exact absurd h (by simp)
  | success w => rw [hc] at h; injection h with hw; rw [hw]

/-- C1. Whenever `addOrderLine` succeeds, the returned snapshot's lines are
the input lines with the new line appended and its `totalAmount` equals the
sum of `unitPrice × quantity` over all of those lines; and an order freshly
produced by `createOrder` has empty lines and `totalAmount` zero. The line
values are quantified over the inhabitants of the branded `Price` and
`Quantity` types (whole hundredths in range, positive integers ≤ 9999), the
only values the smart constructors let into an `OrderLine`. -/
theorem addOrderLine_totalAmount (order : Order) (line : OrderLine) (now : Date)
    (o' : Order) (cid oid : String) (now₂ : Date)
    (hval : ∀ l ∈ order.lines ++ [line], IsPrice l.unitPrice ∧ IsQuantity l.quantity)
    (hsucc : addOrderLine order line now = .success o') :
    o'.lines = order.lines ++ [line]
    ∧ o'.totalAmount = sumAmount o'.lines
    ∧ (createOrder cid oid now₂).lines = []
    ∧ (createOrder cid oid now₂).totalAmount = 0 := by
  have hden : ((sumAmount (order.lines ++ [line])) * 100).den = 1 := by
    refine sumAmount_den _ 0 (by simp) ?_
    intro l hl
    exact ⟨(hval l hl).1.2.2, (hval l hl).2.1⟩
  simp only [addOrderLine] at hsucc
  by_cases hA : order.status.tag ≠ "draft"
  · rw [if_pos hA] at hsucc
    exact absurd hsucc (by simp)
  · rw [if_neg hA] at hsucc
    by_cases hB : ((order.lines.find? fun l => l.productId == line.productId).isSome) = true
    · rw [if_pos hB] at hsucc
      exact absurd hsucc (by simp)
    · rw [if_neg hB] at hsucc
      cases heq : calculateTotalAmount (order.lines ++ [line]) with
      | error m =>
        simp only [heq] at hsucc
        exact absurd hsucc (by simp)
      | ok v =>
        simp only [heq] at hsucc
        have hv : v = sumAmount (order.lines ++ [line]) :=
          createPrice_fixed hden (calculateTotalAmount_ok heq)
        cases heq2 : orderSchemaParse { order with
            lines := order.lines ++ [line], totalAmount := v, updatedAt := now } with
        | error m =>
          simp only [heq2] at hsucc
          exact absurd hsucc (by simp)
        | ok u =>
          simp only [heq2] at hsucc
          have hu := orderSchemaParse_ok heq2
          injection hsucc with ho
          subst ho
          rw [hu, hv]
          exact ⟨rfl, rfl, rfl, rfl⟩

/-- Witness for C1 at concrete inputs: appending a 1500 × 2 line to a fresh
draft order yields lines `[demoLine]` with total 3000. -/
theorem addOrderLine_totalAmount_witness :
    (∀ l ∈ (createOrder "cust-1" "order-3" 0).lines ++ [demoLine],
      IsPrice l.unitPrice ∧ IsQuantity l.quantity)
    ∧ (addOrderLine (createOrder "cust-1" "order-3" 0) demoLine 5 =
        .success { id := "order-3", customerId := "cust-1", lines := [demoLine],
                   status := .draft, totalAmount := 3000, createdAt := 0, updatedAt := 5 })
    ∧ ([demoLine] : List OrderLine) = (createOrder "cust-1" "order-3" 0).lines ++ [demoLine]
    ∧ (3000 : ℚ) = sumAmount [demoLine]
    ∧ (createOrder "c" "o" 9).lines = []
    ∧ (createOrder "c" "o" 9).totalAmount = 0 :=
  have hval : ∀ l ∈ (createOrder "cust-1" "order-3" 0).lines ++ [demoLine],
      IsPrice l.unitPrice ∧ IsQuantity l.quantity := by
    norm_num [createOrder, demoLine, IsPrice, IsQuantity]
  have hsucc : addOrderLine (createOrder "cust-1" "order-3" 0) demoLine 5 =
      .success { id := "order-3", customerId := "cust-1", lines := [demoLine],
                 status := .draft, totalAmount := 3000, createdAt := 0, updatedAt := 5 } := by
    norm_num [addOrderLine, createOrder, demoLine, OrderStatus.tag, calculateTotalAmount,
      sumAmount, createPrice, mathRound, orderSchemaParse, parseLines, parseName100]
    rfl
  have hmain := addOrderLine_totalAmount (createOrder "cust-1" "order-3" 0) demoLine 5
    { id := "order-3", customerId := "cust-1", lines := [demoLine],
      status := .draft, totalAmount := 3000, createdAt := 0, updatedAt := 5 }
    "c" "o" 9 hval hsucc
  ⟨hval, hsucc, hmain.1.symm, hmain.2.1, hmain.2.2.1, hmain.2.2.2⟩

/-! ## C3 — create-shipment handler behavior -/

/-- On a schema-valid address, `createShipping` returns the constructed
pending snapshot. -/
theorem createShipping_ok (orderId : String) (a : Address) (m : ShippingMethod)
    (newId : String) (now : Date) (h : addressParse a = .ok a) :
    createShipping orderId a m newId now = .ok
      { id := newId, orderId := orderId, shippingAddress := a, method := m,
        status := .pending,
        estimatedDeliveryDate := some (calculateEstimatedDeliveryDate m now),
        createdAt := now, updatedAt := now } := by
  simp only [createShipping, shippingSchemaParse, h]

/-- A valid command-shape parse is exactly a valid address parse. -/
theorem createShippingCommandParse_ok {c : CreateShippingCommand}
    (h : addressParse c.shippingAddress = .ok c.shippingAddress) :
    createShippingCommandParse c = .ok () := by
  unfold createShippingCommandParse
  rw [h]

/-- C3. Running the create-shipment handler against pure repositories (reads
backed by lookup functions, `save` recording into the state): when the order
repository has no order with the command's id the handler returns
`not_found`; when the found order is not paid, or a shipment for that order
id already exists, it returns `business_rule_violation`; otherwise it
constructs a pending shipment, saves exactly that snapshot, and returns its
shipping id. In every failure case the state is unchanged — the shipping
repository's `save` is never invoked. -/
theorem createShipping_handler_spec
    (findO : String → Option Order) (findS : String → Option Shipping)
    (command : CreateShippingCommand) (newId : String) (now : Date) (s : List Shipping)
    (haddr : addressParse command.shippingAddress = .ok command.shippingAddress) :
    (findO command.orderId = none →
      createCreateShippingCommandHandler (pureOrderRepo findO) (recordingShippingRepo findS)
          newId now command s
        = (.ok (.left (.not_found ("注文ID " ++ command.orderId ++ " が見つかりません"))), s))
    ∧ (∀ o, findO command.orderId = some o → o.status.tag ≠ "paid" →
      createCreateShippingCommandHandler (pureOrderRepo findO) (recordingShippingRepo findS)
          newId now command s
        = (.ok (.left (.business_rule_violation "支払い済みの注文のみ配送できます")), s))
    ∧ (∀ o sh, findO command.orderId = some o → o.status.tag = "paid" →
        findS command.orderId = some sh →
      createCreateShippingCommandHandler (pureOrderRepo findO) (recordingShippingRepo findS)
          newId now command s
        = (.ok (.left (.business_rule_violation
            ("注文ID " ++ command.orderId ++ " の配送は既に存在します"))), s))
    ∧ (∀ o, findO command.orderId = some o → o.status.tag = "paid" →
        findS command.orderId = none →
      ∃ sh, createShipping command.orderId command.shippingAddress command.method newId now
          = .ok sh
        ∧ sh.status = .pending
        ∧ createCreateShippingCommandHandler (pureOrderRepo findO) (recordingShippingRepo findS)
            newId now command s
          = (.ok (.right sh.id), s ++ [sh])) := by
  have hcp : createShippingCommandParse command = .ok () := createShippingCommandParse_ok haddr
  refine ⟨?_, ?_, ?_, ?_⟩
  · intro hfind
    simp [createCreateShippingCommandHandler, hcp, taskEither.chain, taskEither.fromEither,
      taskEither.fromPromise, pureOrderRepo, recordingShippingRepo, promiseBind, promisePure,
      hfind]
  · intro o hfind hpaid
    simp [createCreateShippingCommandHandler, hcp, taskEither.chain, taskEither.fromEither,
      taskEither.fromPromise, pureOrderRepo, recordingShippingRepo, promiseBind, promisePure,
      hfind, hpaid]
  · intro o sh hfind hpaid hfinds
    simp [createCreateShippingCommandHandler, hcp, taskEither.chain, taskEither.fromEither,
      taskEither.fromPromise, pureOrderRepo, recordingShippingRepo, promiseBind, promisePure,
      hfind, hpaid, hfinds]
  · intro o hfind hpaid hfinds
    refine ⟨_, createShipping_ok command.orderId command.shippingAddress command.method
      newId now haddr, rfl, ?_⟩
    simp [createCreateShippingCommandHandler, hcp, taskEither.chain, taskEither.fromEither,
      taskEither.fromPromise, pureOrderRepo, recordingShippingRepo, promiseBind, promisePure,
      hfind, hpaid, hfinds,
      createShipping_ok command.orderId command.shippingAddress command.method newId now haddr]

/-- Witness for C3 at concrete inputs: the four handler outcomes — missing
order, unpaid order, duplicate shipment, and successful creation (which
records exactly one saved snapshot). -/
theorem createShipping_handler_spec_witness :
    (createCreateShippingCommandHandler (pureOrderRepo fun _ => none)
        (recordingShippingRepo fun _ => none) "ship-9" 50
        { orderId := "order-1", shippingAddress := demoAddress, method := .standard } []
      = (.ok (.left (.not_found ("注文ID " ++ "order-1" ++ " が見つかりません"))), []))
    ∧ (createCreateShippingCommandHandler (pureOrderRepo fun _ => some demoPlacedOrder)
        (recordingShippingRepo fun _ => none) "ship-9" 50
        { orderId := "order-1", shippingAddress := demoAddress, method := .standard } []
      = (.ok (.left (.business_rule_violation "支払い済みの注文のみ配送できます")), []))
    ∧ (createCreateShippingCommandHandler (pureOrderRepo fun _ => some demoPaidOrder)
        (recordingShippingRepo fun _ => some demoPending) "ship-9" 50
        { orderId := "order-1", shippingAddress := demoAddress, method := .standard } []
      = (.ok (.left (.business_rule_violation
          ("注文ID " ++ "order-1" ++ " の配送は既に存在します"))), []))
    ∧ (∃ sh, createShipping "order-1" demoAddress .standard "ship-9" 50 = .ok sh
        ∧ sh.status = .pending
        ∧ createCreateShippingCommandHandler (pureOrderRepo fun _ => some demoPaidOrder)
            (recordingShippingRepo fun _ => none) "ship-9" 50
            { orderId := "order-1", shippingAddress := demoAddress, method := .standard } []
          = (.ok (.right sh.id), [] ++ [sh])) :=
  ⟨(createShipping_handler_spec (fun _ => none) (fun _ => none)
      { orderId := "order-1", shippingAddress := demoAddress, method := .standard }
      "ship-9" 50 [] (by rfl)).1 rfl,
   (createShipping_handler_spec (fun _ => some demoPlacedOrder) (fun _ => none)
      { orderId := "order-1", shippingAddress := demoAddress, method := .standard }
      "ship-9" 50 [] (by rfl)).2.1 demoPlacedOrder rfl (by decide),
   (createShipping_handler_spec (fun _ => some demoPaidOrder) (fun _ => some demoPending)
      { orderId := "order-1", shippingAddress := demoAddress, method := .standard }
      "ship-9" 50 [] (by rfl)).2.2.1 demoPaidOrder demoPending rfl rfl rfl,
   (createShipping_handler_spec (fun _ => some demoPaidOrder) (fun _ => none)
      { orderId := "order-1", shippingAddress := demoAddress, method := .standard }
      "ship-9" 50 [] (by rfl)).2.2.2 demoPaidOrder rfl rfl rfl⟩

/-! ## C4 — orchestrators always resolve; faults become repository errors -/

/-- A deferred computation resolves (is never a rejected promise), whatever
state it starts from. -/
def Resolves {σ E A : Type} (t : TaskEither σ E A) : Prop :=
  ∀ s, ∃ e s₁, t s = (Except.ok e, s₁)

/-- The `fromEither` resolves. -/
theorem resolves_fromEither {σ E A : Type} (e : Either E A) :
    Resolves (taskEither.fromEither e : TaskEither σ E A) :=
  fun s => ⟨e, s, rfl⟩

/-- The `fromPromise` resolves even when the wrapped promise rejects: the
rejection is converted by `onReject` into a resolved `left`. -/
theorem resolves_fromPromise {σ E A : Type} (p : Promise σ A) (onReject : Reason → E) :
    Resolves (taskEither.fromPromise p onReject) := by
  intro s
  rcases hp : p s with ⟨r, s₁⟩
  cases r with
  | ok a => exact ⟨.right a, s₁, by simp [taskEither.fromPromise, hp]⟩
  | error rr => exact ⟨.left (onReject rr), s₁, by simp [taskEither.fromPromise, hp]⟩

/-- The `chain` of resolving computations resolves. -/
theorem resolves_chain {σ E A B : Type} {f : A → TaskEither σ E B} {t : TaskEither σ E A}
    (hf : ∀ a, Resolves (f a)) (ht : Resolves t) : Resolves (taskEither.chain f t) := by
  intro s
  obtain ⟨e, s₁, he⟩ := ht s
  cases e with
  | left err => exact ⟨.left err, s₁, chain_left f t err s s₁ he⟩
  | right a =>
    obtain ⟨e₂, s₂, he₂⟩ := hf a s₁
    exact ⟨e₂, s₂, by rw [chain_right f t a s s₁ he, he₂]⟩

/-- A command that passes the shape validation has a schema-valid address. -/
theorem createShippingCommandParse_addr {c : CreateShippingCommand}
    (h : createShippingCommandParse c = .ok ()) :
    addressParse c.shippingAddress = .ok c.shippingAddress := by
  unfold createShippingCommandParse at h
  cases ha : addressParse c.shippingAddress with
  | error m => rw [ha] at h; exact absurd h (by simp)
  | ok b =>
    rw [addressParse_ok ha]

/-- The create-shipment handler resolves for every command and every
collaborator behavior: validation failures return early, the entry
validation guards the only synchronous throw (`createShipping`), and every
collaborator call is wrapped by `fromPromise`. -/
theorem resolves_createShippingHandler {σ : Type} (orderRepository : OrderRepositoryM σ)
    (shippingRepository : ShippingRepositoryM σ) (newShippingId : String) (now : Date)
    (command : CreateShippingCommand) :
    Resolves (createCreateShippingCommandHandler orderRepository shippingRepository
      newShippingId now command) := by
  cases hcp : createShippingCommandParse command with
  | error m =>
    intro s
    exact ⟨.left (.validation_error m), s,
      by simp [createCreateShippingCommandHandler, hcp, taskEither.fromEither]⟩
  | ok u =>
    cases u
    have haddr := createShippingCommandParse_addr hcp
    have hcs := createShipping_ok command.orderId command.shippingAddress command.method
      newShippingId now haddr
    have hrw : createCreateShippingCommandHandler orderRepository shippingRepository
        newShippingId now command
        = taskEither.chain (fun (shipping : Shipping) =>
            taskEither.fromPromise
              (promiseBind (shippingRepository.save shipping)
                (fun _ => promisePure shipping.id))
              (fun error => .repository_error "配送の保存中にエラーが発生しました" (some error)))
          (taskEither.chain (fun (_ : Unit) =>
            match createShipping command.orderId command.shippingAddress command.method
                newShippingId now with
            | .error m => fun s => (.error m, s)
            | .ok shipping => taskEither.fromEither (.right shipping))
          (taskEither.chain (fun (existingShipping : Option Shipping) =>
            match existingShipping with
            | some _ => taskEither.fromEither (.left (.business_rule_violation
                ("注文ID " ++ command.orderId ++ " の配送は既に存在します")))
            | none => taskEither.fromEither (.right ()))
          (taskEither.chain (fun (_ : Order) =>
            taskEither.fromPromise (shippingRepository.findByOrderId command.orderId)
              (fun error => .repository_error "配送情報の確認中にエラーが発生しました" (some error)))
          (taskEither.chain (fun (order : Order) =>
            if order.status.tag ≠ "paid" then
              taskEither.fromEither
                (.left (.business_rule_violation "支払い済みの注文のみ配送できます"))
            else taskEither.fromEither (.right order))
          (taskEither.chain (fun (foundOrder : Option Order) =>
            match foundOrder with
            | none => taskEither.fromEither (.left (.not_found
                ("注文ID " ++ command.orderId ++ " が見つかりません")))
            | some order => taskEither.fromEither (.right order))
          (taskEither.fromPromise (orderRepository.findById command.orderId)
            (fun error => .repository_error "注文の取得中にエラーが発生しました"
              (some error)))))))) := by
      simp only [createCreateShippingCommandHandler, hcp]
    rw [hrw]
    refine resolves_chain (fun _ => resolves_fromPromise _ _) ?_
    refine resolves_chain ?_ ?_
    · intro a
      simp only [hcs]
      exact resolves_fromEither _
    · refine resolves_chain ?_ ?_
      · intro ex
        cases ex <;> exact resolves_fromEither _
      · refine resolves_chain (fun _ => resolves_fromPromise _ _) ?_
        refine resolves_chain ?_ ?_
        · intro o
          by_cases hp : o.status.tag ≠ "paid"
          · rw [if_pos hp]
            exact resolves_fromEither _
          · rw [if_neg hp]
            exact resolves_fromEither _
        · refine resolves_chain ?_ (resolves_fromPromise _ _)
          intro fo
          cases fo <;> exact resolves_fromEither _

/-- The place-order handler resolves for every command and every
collaborator behavior: every domain step is total and every collaborator
call is wrapped by `fromPromise`. -/
theorem resolves_placeOrderHandler {σ : Type} (orderRepository : OrderRepositoryM σ)
    (eventBus : EventBusM σ) (newCustomerId newOrderId : String) (now : Date)
    (command : PlaceOrderCommand) :
    Resolves (createPlaceOrderCommandHandler orderRepository eventBus
      newCustomerId newOrderId now command) := by
  cases hcp : placeOrderCommandParse command with
  | error m =>
    intro s
    exact ⟨.left (.validation_error m), s,
      by simp [createPlaceOrderCommandHandler, hcp, taskEither.fromEither]⟩
  | ok u =>
    cases u
    have hrw : createPlaceOrderCommandHandler orderRepository eventBus
        newCustomerId newOrderId now command
        = taskEither.chain (fun (order : Order) =>
            taskEither.fromPromise
              (promiseBind (eventBus.publish
                  { aggregateId := order.id
                    customerId := order.customerId
                    totalAmount := order.totalAmount
                    occurredAt := now })
                (fun _ => promisePure order.id))
              (fun error => .repository_error "イベントの発行中にエラーが発生しました" (some error)))
          (taskEither.chain (fun (order : Order) =>
            taskEither.fromPromise
              (promiseBind (orderRepository.save order) (fun _ => promisePure order))
              (fun error => .repository_error "注文の保存中にエラーが発生しました" (some error)))
          (taskEither.chain (fun (order : Order) =>
            match placeOrder order now with
            | .failure e => taskEither.fromEither (.left (.business_rule_violation e))
            | .success o => taskEither.fromEither (.right o))
          (taskEither.chain (fun (order : Order) =>
            match addLines now order command.lines with
            | .failure e => taskEither.fromEither (.left (.business_rule_violation e))
            | .success o => taskEither.fromEither (.right o))
          (taskEither.fromEither
            (.right (createOrder newCustomerId newOrderId now)))))) := by
      simp only [createPlaceOrderCommandHandler, hcp]
    rw [hrw]
    refine resolves_chain (fun _ => resolves_fromPromise _ _) ?_
    refine resolves_chain (fun _ => resolves_fromPromise _ _) ?_
    refine resolves_chain ?_ ?_
    · intro o
      cases placeOrder o now <;> exact resolves_fromEither _
    · refine resolves_chain ?_ (resolves_fromEither _)
      intro o
      cases addLines now o command.lines <;> exact resolves_fromEither _

/-- C4. For every command input and every collaborator behavior (including
rejecting collaborator calls), both orchestrator invocations resolve to a
tagged success-or-failure `Either` and never reject abnormally; `fromPromise`
converts every collaborator rejection into the error produced by its mapper,
and at the orchestrators' call sites that mapper builds a
`repository_error` carrying the underlying cause — shown here for the
create-shipment handler's order load and the place-order handler's save. -/
theorem orchestrators_resolve {σ : Type} (orderRepository : OrderRepositoryM σ)
    (shippingRepository : ShippingRepositoryM σ) (eventBus : EventBusM σ)
    (newShippingId newCustomerId newOrderId : String) (now : Date)
    (shipCommand : CreateShippingCommand) (placeCommand : PlaceOrderCommand)
    (s s₁ : σ) (r : Reason) :
    Resolves (createCreateShippingCommandHandler orderRepository shippingRepository
      newShippingId now shipCommand)
    ∧ Resolves (createPlaceOrderCommandHandler orderRepository eventBus
      newCustomerId newOrderId now placeCommand)
    ∧ (∀ (E A : Type) (p : Promise σ A) (onReject : Reason → E),
        p s = (.error r, s₁) →
        taskEither.fromPromise p onReject s = (.ok (.left (onReject r)), s₁))
    ∧ (createShippingCommandParse shipCommand = .ok () →
        orderRepository.findById shipCommand.orderId s = (.error r, s₁) →
        createCreateShippingCommandHandler orderRepository shippingRepository newShippingId
          now shipCommand s
          = (.ok (.left (.repository_error "注文の取得中にエラーが発生しました" (some r))), s₁))
    ∧ (placeOrderCommandParse placeCommand = .ok () →
        ∀ o₁ o₂, addLines now (createOrder newCustomerId newOrderId now) placeCommand.lines
            = .success o₁ →
          placeOrder o₁ now = .success o₂ →
          orderRepository.save o₂ s = (.error r, s₁) →
          createPlaceOrderCommandHandler orderRepository eventBus newCustomerId newOrderId
            now placeCommand s
            = (.ok (.left (.repository_error "注文の保存中にエラーが発生しました" (some r))), s₁)) := by
  refine ⟨resolves_createShippingHandler _ _ _ _ _,
    resolves_placeOrderHandler _ _ _ _ _ _, ?_, ?_, ?_⟩
  · intro E A p onReject hp
    simp [taskEither.fromPromise, hp]
  · intro hcp hrej
    simp [createCreateShippingCommandHandler, hcp, taskEither.chain, taskEither.fromEither,
      taskEither.fromPromise, hrej]
  · intro hcp o₁ o₂ hadd hplace hrej
    simp [createPlaceOrderCommandHandler, hcp, taskEither.chain, taskEither.fromEither,
      taskEither.fromPromise, promiseBind, promisePure, hadd, hplace, hrej]

/-- Witness for C4 at concrete inputs: a repository whose calls all reject
still leaves both handlers resolving, and the rejections surface as
`repository_error` values carrying the cause. -/
theorem orchestrators_resolve_witness :
    Resolves (createCreateShippingCommandHandler rejectingOrderRepo okShippingRepo
      "ship-9" 0 demoShipCommand)
    ∧ Resolves (createPlaceOrderCommandHandler rejectingOrderRepo okEventBus
      "cust-9" "order-9" 0 demoPlaceCommand)
    ∧ (rejectingPromise 0 = (.error "boom", 0)
        ∧ taskEither.fromPromise rejectingPromise (fun rr => rr) 0
            = (.ok (.left "boom"), 0))
    ∧ (createShippingCommandParse demoShipCommand = .ok ()
        ∧ rejectingOrderRepo.findById demoShipCommand.orderId 0 = (.error "boom", 0)
        ∧ createCreateShippingCommandHandler rejectingOrderRepo okShippingRepo "ship-9" 0
            demoShipCommand 0
          = (.ok (.left (.repository_error "注文の取得中にエラーが発生しました" (some "boom"))), 0))
    ∧ (placeOrderCommandParse demoPlaceCommand = .ok ()
        ∧ addLines 0 (createOrder "cust-9" "order-9" 0) demoPlaceCommand.lines
            = .success demoBuiltOrder
        ∧ placeOrder demoBuiltOrder 0 = .success demoBuiltPlaced
        ∧ rejectingOrderRepo.save demoBuiltPlaced 0 = (.error "boom", 0)
        ∧ createPlaceOrderCommandHandler rejectingOrderRepo okEventBus "cust-9" "order-9" 0
            demoPlaceCommand 0
          = (.ok (.left (.repository_error "注文の保存中にエラーが発生しました" (some "boom"))), 0)) :=
  have hadd : addLines 0 (createOrder "cust-9" "order-9" 0) demoPlaceCommand.lines
      = .success demoBuiltOrder := by
    norm_num [addLines, addOrderLine, createOrder, demoLine, demoPlaceCommand,
      demoBuiltOrder, OrderStatus.tag, calculateTotalAmount, sumAmount, createPrice,
      mathRound, orderSchemaParse, parseLines, parseName100]
    rfl
  have hplace : placeOrder demoBuiltOrder 0 = .success demoBuiltPlaced := by decide
  have hmain := orchestrators_resolve rejectingOrderRepo okShippingRepo okEventBus
    "ship-9" "cust-9" "order-9" 0 demoShipCommand demoPlaceCommand 0 0 "boom"
  ⟨hmain.1, hmain.2.1,
   ⟨rfl, hmain.2.2.1 String Nat rejectingPromise (fun rr => rr) rfl⟩,
   ⟨rfl, rfl, hmain.2.2.2.1 rfl rfl⟩,
   ⟨rfl, hadd, hplace, rfl,
    hmain.2.2.2.2 rfl demoBuiltOrder demoBuiltPlaced hadd hplace rfl⟩⟩

end Shop
